import Mathlib

set_option autoImplicit false

/-!
Shallow embedding of the offline-first core of the NuxtAuth repository:
the durable store (composables/useOfflineStorage.ts, reproduced in
FIX_OFFLINE_PAGE_REFRESH.md), the cache-aside accessor and connectivity
monitor (composables/useOfflineApi.ts), and the offline credential
validator (composables/useOfflineAuth.ts, reproduced in
FIX_OFFLINE_PAGE_REFRESH.md).

JavaScript values stored in the cache are modelled by a JSON-like
inductive type; JavaScript truthiness (`if (x)`) is modelled explicitly,
because several source functions branch on the truthiness of a stored
value rather than on its mere presence. Timestamps are integers in
milliseconds (Date.now()); TTLs are integers in seconds, as in the source.
-/

namespace NuxtAuth

/-- JSON-serializable values, the payloads the store persists. -/
inductive JVal where
  | null
  | bool (b : Bool)
  | num (n : Int)
  | str (s : String)
  | arr (xs : List JVal)
  | obj (fields : List (String × JVal))

/-- JavaScript truthiness of a JSON value: null, false, 0 and the empty
string are falsy; objects and arrays are always truthy. -/
def jsTruthy : JVal → Bool
  | .null => false
  | .bool b => b
  | .num n => n != 0
  | .str s => s != ""
  | .arr _ => true
  | .obj _ => true

/-- Truthiness of a lookup result: `storage.get` returns the stored value
or null, and callers write `if (cached)`. -/
def jsTruthyOpt : Option JVal → Bool
  | some v => jsTruthy v
  | none => false

/-- A record in the cache partition, as written by `save`:
`{ key, value, timestamp: Date.now(), ttl: options?.ttl }`. The timestamp
is in milliseconds, the ttl in seconds. -/
structure CacheRecord where
  value : JVal
  timestamp : Int
  ttl : Option Int

/-- A record in the queue partition, as written by `queueAction`:
`{ url, data, options, cacheKey, timestamp }` plus the auto-incremented
IndexedDB key `id`. Request options are summarized by the method string,
the only part the replay semantics depends on. -/
structure QueuedAction where
  id : Nat
  url : String
  data : JVal
  method : String
  cacheKey : String
  timestamp : Int

/-- The durable store: the IndexedDB substrate (object stores `cache` and
`queue`) and the localStorage fallback substrate, with availability flags
(`initDB` returning null models `idbAvailable = false`;
`window.localStorage` being absent models `lsAvailable = false`). -/
structure Store where
  idbAvailable : Bool
  lsAvailable : Bool
  idbCache : List (String × CacheRecord)
  lsCache : List (String × CacheRecord)
  queue : List QueuedAction
  nextId : Nat

/-- Keyed lookup in a cache partition (IndexedDB `store.get(key)` /
`localStorage.getItem(key)`). -/
def lookupKV (m : List (String × CacheRecord)) (k : String) : Option CacheRecord :=
  (m.find? (fun p => p.1 == k)).map Prod.snd

/-- Keyed upsert in a cache partition (IndexedDB `store.put(data)` with
`keyPath: 'key'` / `localStorage.setItem`): replaces any record at the key. -/
def putKV (m : List (String × CacheRecord)) (k : String) (r : CacheRecord) :
    List (String × CacheRecord) :=
  (k, r) :: m.filter (fun p => p.1 != k)

/-- Keyed delete in a cache partition (IndexedDB `store.delete(key)` /
`localStorage.removeItem`). -/
def delKV (m : List (String × CacheRecord)) (k : String) : List (String × CacheRecord) :=
  m.filter (fun p => p.1 != k)

/-- useOfflineStorage.save: writes `{ value, timestamp: now, ttl }` to the
IndexedDB cache store when available, else to localStorage, else reports
failure. Returns the success flag and the updated store. -/
def save (st : Store) (now : Int) (key : String) (value : JVal) (ttl : Option Int) :
    Bool × Store :=
  if st.idbAvailable then
    (true, { st with idbCache := putKV st.idbCache key ⟨value, now, ttl⟩ })
  else if st.lsAvailable then
    (true, { st with lsCache := putKV st.lsCache key ⟨value, now, ttl⟩ })
  else
    (false, st)

/-- The expiry test of useOfflineStorage.get: `if (result.ttl)` is a
truthiness test, so the age check runs only when ttl is present and
nonzero; the age `(Date.now() - result.timestamp) / 1000` exceeds ttl
exactly when `now - timestamp > ttl * 1000`. -/
def ttlExpired (now : Int) (r : CacheRecord) : Bool :=
  match r.ttl with
  | some t => t != 0 && now - r.timestamp > t * 1000
  | none => false

/-- useOfflineStorage.get: on the IndexedDB substrate a hit whose ttl is
set, nonzero and exceeded is removed and reported absent; on the
localStorage fallback the parsed value is returned with no ttl check
(the source reads `parsed.value` directly). Returns the value-or-absent
and the (possibly evicted) store. -/
def get (st : Store) (now : Int) (key : String) : Option JVal × Store :=
  if st.idbAvailable then
    match lookupKV st.idbCache key with
    | none => (none, st)
    | some r =>
      if ttlExpired now r then
        (none, { st with idbCache := delKV st.idbCache key })
      else
        (some r.value, st)
  else if st.lsAvailable then
    match lookupKV st.lsCache key with
    | none => (none, st)
    | some r => (some r.value, st)
  else
    (none, st)

/-- useOfflineStorage.remove: deletes from IndexedDB when available, else
from localStorage, else reports failure. -/
def remove (st : Store) (key : String) : Bool × Store :=
  if st.idbAvailable then
    (true, { st with idbCache := delKV st.idbCache key })
  else if st.lsAvailable then
    (true, { st with lsCache := delKV st.lsCache key })
  else
    (false, st)

/-- useOfflineStorage.queueAction: appends the action to the IndexedDB
queue store with the auto-incremented id. When IndexedDB is unavailable
the source returns false at once (`if (!database) return false`) — there
is no localStorage fallback for the queue. -/
def queueAction (st : Store) (now : Int) (url : String) (data : JVal)
    (method : String) (cacheKey : String) : Bool × Store :=
  if st.idbAvailable then
    (true, { st with
      queue := st.queue ++ [⟨st.nextId, url, data, method, cacheKey, now⟩],
      nextId := st.nextId + 1 })
  else
    (false, st)

/-- Delete a queue entry by id (the per-iteration
`deleteStore.delete(action.id)` of processQueue). -/
def deleteById (q : List QueuedAction) (i : Nat) : List QueuedAction :=
  q.filter (fun a => a.id != i)

/-- The loop body of useOfflineStorage.processQueue over the `getAll()`
snapshot: each snapshot entry is passed to the processor; on success its
id is deleted from the queue; on failure the catch logs and the loop
continues with the next entry. `replayOk` tells whether the processor
(the remote replay) succeeds on an entry. -/
def processActions (replayOk : QueuedAction → Bool) :
    List QueuedAction → List QueuedAction → List QueuedAction
  | q, [] => q
  | q, a :: rest =>
    processActions replayOk (if replayOk a then deleteById q a.id else q) rest

/-- useOfflineStorage.processQueue: no-op when IndexedDB is unavailable;
otherwise runs the loop over the snapshot of the current queue. -/
def processQueue (st : Store) (replayOk : QueuedAction → Bool) : Store :=
  if st.idbAvailable then
    { st with queue := processActions replayOk st.queue st.queue }
  else
    st

/-- The entries on which processQueue invokes the processor: every entry
of the `getAll()` snapshot, unconditionally — the loop never breaks. -/
def replayedActions (st : Store) : List QueuedAction :=
  if st.idbAvailable then st.queue else []

/-- The cache key actually used by the accessor: `cacheKey || url` is a
truthiness test, so an absent or empty cacheKey falls back to the url. -/
def effectiveKey (cacheKey : Option String) (url : String) : String :=
  match cacheKey with
  | some k => if k != "" then k else url
  | none => url

/-- Outcome of fetchWithCache: the returned data, the thrown
"You are offline and no cached data is available" error, or the
propagated remote failure. -/
inductive FetchResult where
  | ok (v : JVal)
  | noOfflineData
  | networkError

/-- Result of a fetchWithCache call: its outcome, whether any network
request was issued, and the store afterwards. -/
structure FetchOutcome where
  result : FetchResult
  networkCalled : Bool
  store : Store

/-- useOfflineApi.fetchWithCache. The remote call `$fetch(url, options)`
is modelled by the oracle `net`: some response on success, none when it
throws. Offline branch: read cache, `if (cached)` return it, else throw
the no-offline-data error — no network request. Online branch: call the
network; on success save the response with ttl 86400 and return it; on
failure read cache, `if (cached)` return it, else rethrow the network
error. -/
def fetchWithCache (st : Store) (now : Int) (online : Bool) (net : Option JVal)
    (url : String) (cacheKey : Option String) : FetchOutcome :=
  let key := effectiveKey cacheKey url
  if !online then
    let (cached, st₁) := get st now key
    match cached with
    | some v =>
      if jsTruthy v then ⟨.ok v, false, st₁⟩ else ⟨.noOfflineData, false, st₁⟩
    | none => ⟨.noOfflineData, false, st₁⟩
  else
    match net with
    | some data =>
      let (_, st₁) := save st now key data (some 86400)
      ⟨.ok data, true, st₁⟩
    | none =>
      let (cached, st₁) := get st now key
      match cached with
      | some v =>
        if jsTruthy v then ⟨.ok v, true, st₁⟩ else ⟨.networkError, true, st₁⟩
      | none => ⟨.networkError, true, st₁⟩

/-- Result object of updateWithQueue: `{ success: boolean; queued?: boolean }`. -/
structure UpdateOutcome where
  success : Bool
  queued : Option Bool
  store : Store

/-- The optimistic cache envelope written by the offline and
failed-online write paths of composables/useOfflineApi.ts:
`{ user: plainData, success: true, message }`. -/
def optimisticEnvelope (data : JVal) (message : String) : JVal :=
  .obj [("user", data), ("success", .bool true), ("message", .str message)]

/-- useOfflineApi.updateWithQueue. Offline: queue the action, save the
optimistic envelope with ttl 86400, report success=true queued=true.
Online: attempt the remote call (oracle `net`); on success save the
server response with ttl 86400 and report success=true (queued absent);
on failure queue the action, save the optimistic envelope and report
success=false queued=true. The function never throws (serialization of
the inductive payload type always succeeds). -/
def updateWithQueue (st : Store) (now : Int) (online : Bool) (net : Option JVal)
    (url : String) (data : JVal) (method : String) (cacheKey : Option String) :
    UpdateOutcome :=
  let key := effectiveKey cacheKey url
  if !online then
    let (_, st₁) := queueAction st now url data method key
    let (_, st₂) := save st₁ now key
      (optimisticEnvelope data "Changes saved locally (offline mode)") (some 86400)
    ⟨true, some true, st₂⟩
  else
    match net with
    | some response =>
      let (_, st₁) := save st now key response (some 86400)
      ⟨true, none, st₁⟩
    | none =>
      let (_, st₁) := queueAction st now url data method key
      let (_, st₂) := save st₁ now key
        (optimisticEnvelope data "Changes saved locally (will retry)") (some 86400)
      ⟨false, some true, st₂⟩

/-- The events the connectivity monitor reacts to: the browser `offline`
event (interface down), the browser `online` event (interface up), and
the 10-second periodic timer. -/
inductive ConnEvent where
  | interfaceDown
  | interfaceUp
  | timer

/-- useOfflineApi.checkConnectivity: `navigator.onLine` false short-cuts
to offline with no request; otherwise a HEAD probe of the health endpoint
with a 3s abort decides (`probeOk` is false on timeout, abort or any
error). Returns the verdict and whether the probe was issued. -/
def checkConnectivity (navOnline : Bool) (probeOk : Bool) : Bool × Bool :=
  if !navOnline then (false, false) else (probeOk, true)

/-- The event handlers of composables/useOfflineApi.ts: the `offline`
listener sets the state to false directly; the `online` listener and the
periodic timer run updateOnlineStatus, whose resulting state is the
checkConnectivity verdict. Returns the new state and whether a probe was
issued. -/
def connectivityStep (navOnline probeOk : Bool) (_state : Bool) :
    ConnEvent → Bool × Bool
  | .interfaceDown => (false, false)
  | .interfaceUp => checkConnectivity navOnline probeOk
  | .timer => checkConnectivity navOnline probeOk

/-- Split a character list at every occurrence of the separator, keeping
empty groups, as the JavaScript string split does. -/
def splitCharList (c : Char) : List Char → List (List Char)
  | [] => [[]]
  | ch :: rest =>
    let r := splitCharList c rest
    if ch = c then [] :: r
    else match r with
      | g :: gs => (ch :: g) :: gs
      | [] => [[ch]]

/-- The JavaScript `token.split('.')` used by verifyTokenOffline,
embedded as a structural splitter over the character list. -/
def splitOnDot (s : String) : List String :=
  (splitCharList '.' s.data).map (fun l => String.mk l)

/-- The claims segment of a decoded JWT, as far as verifyTokenOffline
inspects it: the optional numeric `exp` claim (seconds since epoch). -/
structure JwtPayload where
  exp : Option Int

/-- useOfflineAuth.verifyTokenOffline. `decode` models
`JSON.parse(atob(segment))` on the middle segment: none when it throws.
The token must split on dots into exactly three segments; `if
(payload.exp)` is a truthiness test, so the expiry comparison runs only
when exp is present and nonzero; the token is rejected when
`now >= exp * 1000` (now in milliseconds, exp in seconds). -/
def verifyTokenOffline (decode : String → Option JwtPayload) (now : Int)
    (token : String) : Bool :=
  match splitOnDot token with
  | [_, payloadSegment, _] =>
    match decode payloadSegment with
    | none => false
    | some payload =>
      match payload.exp with
      | some e => if e != 0 && now ≥ e * 1000 then false else true
      | none => true
  | _ => false

/-- useOfflineAuth.getCachedUserData: reads the `auth_user_data` cache
key and maps a falsy result to null (`if (userData) ... return null`). -/
def getCachedUserData (st : Store) (now : Int) : Option JVal × Store :=
  let (userData, st₁) := get st now "auth_user_data"
  match userData with
  | some v => (if jsTruthy v then some v else none, st₁)
  | none => (none, st₁)

/-- The method field of the isAuthenticatedOffline result. -/
inductive AuthMethod where
  | token
  | cache
  | none
deriving DecidableEq

/-- Result of isAuthenticatedOffline:
`{ authenticated, user, method }`. -/
structure AuthResult where
  authenticated : Bool
  user : Option JVal
  method : AuthMethod

/-- useOfflineAuth.isAuthenticatedOffline. `cookieToken` models
getTokenFromCookie (null when the cookie is absent); `if (token &&
verifyTokenOffline(token))` makes an empty-string token falsy. When the
token verifies and the cached user is truthy the method is token;
otherwise control falls through to the cached-user-only branch; with no
truthy cached user the result is unauthenticated. -/
def isAuthenticatedOffline (decode : String → Option JwtPayload) (now : Int)
    (cookieToken : Option String) (st : Store) : AuthResult × Store :=
  let tokenOk := match cookieToken with
    | some t => t != "" && verifyTokenOffline decode now t
    | none => false
  if tokenOk then
    let (cachedUser, st₁) := getCachedUserData st now
    match cachedUser with
    | some u => (⟨true, some u, .token⟩, st₁)
    | none =>
      let (cachedUser₂, st₂) := getCachedUserData st₁ now
      match cachedUser₂ with
      | some u => (⟨true, some u, .cache⟩, st₂)
      | none => (⟨false, Option.none, .none⟩, st₂)
  else
    let (cachedUser₂, st₁) := getCachedUserData st now
    match cachedUser₂ with
    | some u => (⟨true, some u, .cache⟩, st₁)
    | none => (⟨false, Option.none, .none⟩, st₁)

/-! Helper lemmas about the queue-drain loop. -/

theorem deleteById_eq_filter (q : List QueuedAction) (i : Nat) :
    deleteById q i = q.filter (fun a => a.id != i) := rfl

theorem processActions_eq_filter (ok : QueuedAction → Bool) :
    ∀ (s q : List QueuedAction),
      processActions ok q s =
        q.filter (fun a => ((s.filter ok).map QueuedAction.id).all (fun i => a.id != i))
  | [], q => by
    simp [processActions]
  | b :: rest, q => by
    by_cases hb : ok b = true
    · have h1 : processActions ok q (b :: rest)
          = processActions ok (deleteById q b.id) rest := by
        simp [processActions, hb]
      rw [h1, processActions_eq_filter ok rest (deleteById q b.id),
        deleteById_eq_filter, List.filter_filter]
      rw [List.filter_cons_of_pos hb]
      simp only [List.map_cons, List.all_cons]
      exact List.filter_congr (fun x _ => Bool.and_comm _ _)
    · have h1 : processActions ok q (b :: rest) = processActions ok q rest := by
        simp [processActions, hb]
      rw [h1, processActions_eq_filter ok rest q]
      rw [List.filter_cons_of_neg (by simpa using hb)]

theorem processActions_self_eq_filter_not (ok : QueuedAction → Bool)
    (q : List QueuedAction) (hnodup : (q.map QueuedAction.id).Nodup) :
    processActions ok q q = q.filter (fun a => !ok a) := by
  rw [processActions_eq_filter]
  refine List.filter_congr (fun a ha => ?_)
  by_cases hok : ok a = true
  · have hmem : a.id ∈ (q.filter ok).map QueuedAction.id :=
      List.mem_map_of_mem _ (List.mem_filter.mpr ⟨ha, hok⟩)
    simp only [hok, Bool.not_true]
    rw [Bool.eq_false_iff]
    intro hall
    have := List.all_eq_true.mp hall a.id hmem
    simp at this
  · simp only [Bool.not_eq_true] at hok
    simp only [hok, Bool.not_false]
    rw [List.all_eq_true]
    intro i hi
    rcases List.mem_map.mp hi with ⟨b, hbmem, hbid⟩
    rcases List.mem_filter.mp hbmem with ⟨hbq, hbok⟩
    have hne : a.id ≠ b.id := by
      intro h
      have hab : a = b := List.inj_on_of_nodup_map hnodup ha hbq h
      rw [hab, hbok] at hok
      exact Bool.true_eq_false.mp hok
    subst hbid
    simpa using hne

/-! Claims C1 and C2: the drain of the pending-mutation queue. -/

/-- Concrete queued mutation: write of name A, queue id 1. -/
def c1A : QueuedAction :=
  ⟨1, "/api/public/profile", .obj [("name", .str "A")], "PUT", "user-profile", 0⟩

/-- Concrete queued mutation: write of name B, queue id 2. -/
def c1B : QueuedAction :=
  ⟨2, "/api/public/profile", .obj [("name", .str "B")], "PUT", "user-profile", 0⟩

/-- Store holding the two pending mutations, primary substrate available. -/
def c1Store : Store := ⟨true, true, [], [], [c1A, c1B], 3⟩

/-- Replay oracle under which the first entry fails and the second succeeds. -/
def c1Ok : QueuedAction → Bool := fun a => a.id == 2

/-- C1 counterexample: with the queue [c1A, c1B] and a replay that fails on
c1A and succeeds on c1B, the drain does not stop at the failed entry — the
later entry c1B is still replayed (the processor is invoked on every
snapshot entry) and, having succeeded, is removed from the queue, contrary
to the claim that every entry after the failure remains and is not
replayed. -/
theorem processQueue_halt_counterexample :
    c1Ok c1A = false ∧
    c1B ∈ replayedActions c1Store ∧
    c1B ∉ (processQueue c1Store c1Ok).queue := by
  refine ⟨rfl, ?_, ?_⟩
  · show c1B ∈ [c1A, c1B]
    exact List.mem_cons_of_mem _ (List.mem_cons_self _ _)
  · have h : (processQueue c1Store c1Ok).queue = [c1A] := rfl
    rw [h]
    simp [c1A, c1B]

/-- C1 (amended): when the replay of an entry fails, that entry stays in
the queue, but draining continues — the processor is invoked on every
entry of the snapshot, and exactly the entries whose replay failed remain,
in their original order. -/
theorem processQueue_keeps_failed_continues_rest (st : Store)
    (ok : QueuedAction → Bool) (hidb : st.idbAvailable = true)
    (hnodup : (st.queue.map QueuedAction.id).Nodup) :
    (processQueue st ok).queue = st.queue.filter (fun a => !ok a) ∧
    replayedActions st = st.queue := by
  constructor
  · simp only [processQueue, hidb, if_true]
    exact processActions_self_eq_filter_not ok st.queue hnodup
  · simp [replayedActions, hidb]

/-- C1 amended-claim witness at the concrete two-entry queue. -/
theorem processQueue_keeps_failed_continues_rest_witness :
    (processQueue c1Store c1Ok).queue = c1Store.queue.filter (fun a => !c1Ok a) ∧
    replayedActions c1Store = c1Store.queue :=
  processQueue_keeps_failed_continues_rest c1Store c1Ok rfl (by decide)

/-- Concrete queued mutation for the at-least-once scenario, id 1. -/
def c2A : QueuedAction :=
  ⟨1, "/api/public/profile", .obj [("name", .str "A")], "PUT", "user-profile", 0⟩

/-- Concrete queued mutation for the at-least-once scenario, id 2. -/
def c2B : QueuedAction :=
  ⟨2, "/api/public/profile", .obj [("name", .str "B")], "PUT", "user-profile", 0⟩

/-- Store holding the two pending mutations for the at-least-once scenario. -/
def c2Store : Store := ⟨true, true, [], [], [c2A, c2B], 3⟩

/-- Replay oracle under which every replay succeeds. -/
def c2Ok : QueuedAction → Bool := fun _ => true

/-- C2: an entry is removed from the queue only after its replay succeeds,
and a drain interrupted right after the successful remote replay of `a`
(the loop has completed the iterations for the entries s₁ before `a` and
the remote call for `a`, but not the per-iteration dequeue of `a` — the
replay itself does not touch the store) leaves `a` in the queue, so the
next full drain invokes the processor on `a` again. -/
theorem processQueue_at_least_once (st : Store) (ok : QueuedAction → Bool)
    (s₁ s₂ : List QueuedAction) (a : QueuedAction)
    (hidb : st.idbAvailable = true)
    (hnodup : (st.queue.map QueuedAction.id).Nodup)
    (hsplit : st.queue = s₁ ++ a :: s₂) :
    (∀ b ∈ st.queue, b ∉ (processQueue st ok).queue → ok b = true) ∧
    (ok a = true →
      a ∈ processActions ok st.queue s₁ ∧
      a ∈ replayedActions { st with queue := processActions ok st.queue s₁ }) := by
  constructor
  · intro b hb hbout
    by_contra hok
    simp only [Bool.not_eq_true] at hok
    apply hbout
    simp only [processQueue, hidb, if_true]
    rw [processActions_self_eq_filter_not ok st.queue hnodup]
    exact List.mem_filter.mpr ⟨hb, by simp [hok]⟩
  · intro hoka
    have hamem : a ∈ st.queue := by
      rw [hsplit]; exact List.mem_append_right _ (List.mem_cons_self _ _)
    have hids : ∀ b ∈ s₁, b.id ≠ a.id := by
      intro b hb heq
      have h1 : (st.queue.map QueuedAction.id) =
          s₁.map QueuedAction.id ++ a.id :: s₂.map QueuedAction.id := by
        rw [hsplit]; simp
      rw [h1] at hnodup
      rcases List.nodup_append.mp hnodup with ⟨_, _, hdisj⟩
      exact hdisj (List.mem_map_of_mem _ hb) (heq ▸ List.mem_cons_self _ _)
    have hmem : a ∈ processActions ok st.queue s₁ := by
      rw [processActions_eq_filter]
      refine List.mem_filter.mpr ⟨hamem, ?_⟩
      rw [List.all_eq_true]
      intro i hi
      rcases List.mem_map.mp hi with ⟨b, hbmem, hbid⟩
      have := hids b (List.mem_filter.mp hbmem).1
      subst hbid
      simpa using fun h => this h.symm
    exact ⟨hmem, by simpa [replayedActions, hidb] using hmem⟩

/-- C2 witness: the drain of [c2A, c2B] interrupted after the successful
replay of c2B but before its dequeue leaves c2B queued and replayed by the
next drain; and with every replay succeeding nothing is removed without a
successful replay. -/
theorem processQueue_at_least_once_witness :
    (∀ b ∈ c2Store.queue, b ∉ (processQueue c2Store c2Ok).queue → c2Ok b = true) ∧
    (c2Ok c2B = true →
      c2B ∈ processActions c2Ok c2Store.queue [c2A] ∧
      c2B ∈ replayedActions
        { c2Store with queue := processActions c2Ok c2Store.queue [c2A] }) :=
  processQueue_at_least_once c2Store c2Ok [c2A] [] c2B rfl (by decide) rfl

/-! Claim C7: connectivity monitor transitions. -/

/-- C7: an interface-down signal moves the state to Offline immediately
and issues no probe; after an interface-up signal the state is Online only
if the liveness probe was issued and succeeded, and a failed probe
(timeout, abort or error) leaves the state Offline. -/
theorem connectivityStep_transitions (navOnline probeOk state : Bool) :
    connectivityStep navOnline probeOk state .interfaceDown = (false, false) ∧
    ((connectivityStep navOnline probeOk state .interfaceUp).1 = true →
      probeOk = true ∧
      (connectivityStep navOnline probeOk state .interfaceUp).2 = true) ∧
    (probeOk = false →
      (connectivityStep navOnline probeOk state .interfaceUp).1 = false) := by
  cases navOnline <;> cases probeOk <;>
    simp [connectivityStep, checkConnectivity]

/-- C7 witness: with the interface up but the probe failing, the
interface-down event yields Offline with no probe and the interface-up
event leaves the state Offline. -/
theorem connectivityStep_transitions_witness :
    connectivityStep true false true ConnEvent.interfaceDown = (false, false) ∧
    (connectivityStep true false true ConnEvent.interfaceUp).1 = false :=
  ⟨(connectivityStep_transitions true false true).1,
   (connectivityStep_transitions true false true).2.2 rfl⟩

/-! Claim C10: tokens without an exp claim never expire locally. -/

/-- C10: a token of exactly three dot-separated segments whose middle
segment decodes to a claims object with no exp field is accepted by
verifyTokenOffline at every current time. -/
theorem verifyTokenOffline_no_exp (decode : String → Option JwtPayload)
    (now : Int) (token h p s : String)
    (hsplit : splitOnDot token = [h, p, s])
    (hdecode : decode p = some ⟨Option.none⟩) :
    verifyTokenOffline decode now token = true := by
  unfold verifyTokenOffline
  rw [hsplit]
  simp [hdecode]

/-- Decode oracle for the C10 witness: the middle segment of the witness
token decodes to a claims object with no exp field. -/
def c10Decode : String → Option JwtPayload :=
  fun seg => if seg == "b" then some ⟨Option.none⟩ else Option.none

/-- C10 witness: the three-segment token is accepted at a large current
time. -/
theorem verifyTokenOffline_no_exp_witness :
    verifyTokenOffline c10Decode 999999999999 "a.b.c" = true :=
  verifyTokenOffline_no_exp c10Decode 999999999999 "a.b.c" "a" "b" "c"
    (by decide) rfl

/-! Claims C3 and C8: the durable store. -/

theorem lookupKV_delKV (m : List (String × CacheRecord)) (k : String) :
    lookupKV (delKV m k) k = Option.none := by
  have h : List.find? (fun p => p.1 == k) (m.filter (fun p => p.1 != k)) =
      Option.none := by
    rw [List.find?_eq_none]
    intro p hp
    rcases List.mem_filter.mp hp with ⟨_, hpk⟩
    simpa using hpk
  unfold lookupKV delKV
  rw [h]
  rfl

theorem lookupKV_putKV (m : List (String × CacheRecord)) (k : String)
    (r : CacheRecord) : lookupKV (putKV m k r) k = some r := by
  unfold lookupKV putKV
  rw [List.find?_cons_of_pos _ (by simp)]
  rfl

/-- Store whose primary substrate is unavailable, holding a fallback
cache entry whose age at read time (5 s) exceeds its ttl (1 s). -/
def c3LsStore : Store :=
  ⟨false, true, [], [("k", ⟨.str "v", 0, some 1⟩)], [], 1⟩

/-- Store holding a primary cache entry with ttlSeconds set to 0. -/
def c3ZeroStore : Store :=
  ⟨true, true, [("k", ⟨.str "v", 0, some 0⟩)], [], [], 1⟩

/-- C3 counterexample: (i) with the primary substrate unavailable, an
entry whose age (5 s) exceeds its set ttl (1 s) is served by the fallback
substrate and returned, not treated as absent, and nothing is evicted;
(ii) on the primary substrate an entry with ttlSeconds set to 0 is
returned at any age, because the truthiness test `if (result.ttl)` skips
the expiry check at 0. -/
theorem get_ttl_counterexample :
    get c3LsStore 5000 "k" = (some (JVal.str "v"), c3LsStore) ∧
    get c3ZeroStore 5000 "k" = (some (JVal.str "v"), c3ZeroStore) :=
  ⟨rfl, rfl⟩

/-- C3 (amended): when the primary substrate serves the call and the
entry's ttl is set and nonzero, a read past the ttl returns absent and
physically removes the entry; a read served by the fallback substrate
returns the stored value with no ttl check and evicts nothing. -/
theorem get_ttl_eviction (st : Store) (now : Int) (key : String)
    (r : CacheRecord) (t : Int) :
    (st.idbAvailable = true → lookupKV st.idbCache key = some r →
      r.ttl = some t → t ≠ 0 → now - r.timestamp > t * 1000 →
      get st now key =
        (Option.none, { st with idbCache := delKV st.idbCache key }) ∧
      lookupKV (delKV st.idbCache key) key = Option.none) ∧
    (st.idbAvailable = false → st.lsAvailable = true →
      lookupKV st.lsCache key = some r →
      get st now key = (some r.value, st)) := by
  constructor
  · intro hidb hlook httl ht hage
    have hexp : ttlExpired now r = true := by
      simp [ttlExpired, httl, ht, hage]
    exact ⟨by simp [get, hidb, hlook, hexp], lookupKV_delKV _ _⟩
  · intro hidb hls hlook
    simp [get, hidb, hls, hlook]

/-- Store whose primary substrate holds an entry one second old with a
one-second ttl, read five seconds after the write. -/
def c3IdbStore : Store :=
  ⟨true, true, [("k", ⟨.str "v", 0, some 1⟩)], [], [], 1⟩

/-- C3 amended-claim witness: the primary read past the ttl evicts and
returns absent; the fallback read returns the expired value unchanged. -/
theorem get_ttl_eviction_witness :
    get c3IdbStore 5000 "k" =
      (Option.none, { c3IdbStore with idbCache := delKV c3IdbStore.idbCache "k" }) ∧
    get c3LsStore 5000 "k" = (some (JVal.str "v"), c3LsStore) :=
  ⟨((get_ttl_eviction c3IdbStore 5000 "k" ⟨.str "v", 0, some 1⟩ 1).1
      rfl rfl rfl (by decide) (by decide)).1,
   (get_ttl_eviction c3LsStore 5000 "k" ⟨.str "v", 0, some 1⟩ 1).2 rfl rfl rfl⟩

/-- Payload used by the C8 queue scenario. -/
def c8Data : JVal := .obj [("name", .str "A")]

/-- Store with the primary substrate unavailable and the fallback healthy,
holding one fallback cache entry. -/
def c8Store : Store :=
  ⟨false, true, [], [("k", ⟨.str "v", 0, Option.none⟩)], [], 1⟩

/-- C8 counterexample: with the primary substrate unavailable and the
fallback substrate healthy, queue enqueue does not fall back — queueAction
reports failure and leaves the store unchanged, though only one substrate
failed. -/
theorem queueAction_no_fallback_counterexample :
    c8Store.lsAvailable = true ∧
    queueAction c8Store 0 "/api/public/profile" c8Data "PUT" "k" =
      (false, c8Store) :=
  ⟨rfl, rfl⟩

/-- C8 (amended): when the primary substrate is unavailable and the
fallback is healthy, cache put/get/delete fall back transparently to the
key-value substrate with the same key/value result shape, but queue
enqueue does not fall back — it reports failure outright. -/
theorem store_fallback (st : Store) (now : Int) (key url method : String)
    (v data : JVal) (ttl : Option Int)
    (hidb : st.idbAvailable = false) (hls : st.lsAvailable = true) :
    save st now key v ttl =
      (true, { st with lsCache := putKV st.lsCache key ⟨v, now, ttl⟩ }) ∧
    (∀ r, lookupKV st.lsCache key = some r →
      get st now key = (some r.value, st)) ∧
    (lookupKV st.lsCache key = Option.none →
      get st now key = (Option.none, st)) ∧
    remove st key = (true, { st with lsCache := delKV st.lsCache key }) ∧
    queueAction st now url data method key = (false, st) := by
  refine ⟨?_, fun r hr => ?_, fun hr => ?_, ?_, ?_⟩
  · simp [save, hidb, hls]
  · simp [get, hidb, hls, hr]
  · simp [get, hidb, hls, hr]
  · simp [remove, hidb, hls]
  · simp [queueAction, hidb]

/-- C8 amended-claim witness at the concrete degraded store. -/
theorem store_fallback_witness :
    save c8Store 7 "k2" (JVal.str "w") Option.none =
      (true, { c8Store with
        lsCache := putKV c8Store.lsCache "k2" ⟨JVal.str "w", 7, Option.none⟩ }) ∧
    get c8Store 7 "k" = (some (JVal.str "v"), c8Store) ∧
    queueAction c8Store 7 "/u" c8Data "PUT" "k" = (false, c8Store) :=
  ⟨(store_fallback c8Store 7 "k2" "/u" "PUT" (JVal.str "w") c8Data
      Option.none rfl rfl).1,
   (store_fallback c8Store 7 "k" "/u" "PUT" (JVal.str "w") c8Data
      Option.none rfl rfl).2.1 ⟨JVal.str "v", 0, Option.none⟩ rfl,
   (store_fallback c8Store 7 "k" "/u" "PUT" (JVal.str "w") c8Data
      Option.none rfl rfl).2.2.2.2⟩

/-! Claims C5 and C9: the cache-aside read path. -/

theorem save_queue (st : Store) (now : Int) (key : String) (v : JVal)
    (ttl : Option Int) : (save st now key v ttl).2.queue = st.queue := by
  by_cases h1 : st.idbAvailable <;> by_cases h2 : st.lsAvailable <;>
    simp [save, h1, h2]

/-- C5 (amended): while offline fetchWithCache issues no network request
and never yields a network error; it returns the cached value exactly when
the store read yields a truthy value (the primary substrate applies its
ttl check inside the read, the fallback applies none), and otherwise fails
with the no-offline-data condition. -/
theorem fetchWithCache_offline (st : Store) (now : Int) (net : Option JVal)
    (url : String) (cacheKey : Option String) :
    (fetchWithCache st now false net url cacheKey).networkCalled = false ∧
    (fetchWithCache st now false net url cacheKey).result ≠ .networkError ∧
    (∀ v st₁, get st now (effectiveKey cacheKey url) = (some v, st₁) →
      jsTruthy v = true →
      (fetchWithCache st now false net url cacheKey).result = .ok v) ∧
    (∀ v st₁, get st now (effectiveKey cacheKey url) = (some v, st₁) →
      jsTruthy v = false →
      (fetchWithCache st now false net url cacheKey).result = .noOfflineData) ∧
    (∀ st₁, get st now (effectiveKey cacheKey url) = (Option.none, st₁) →
      (fetchWithCache st now false net url cacheKey).result = .noOfflineData) := by
  refine ⟨?_, ?_, fun v st₁ hg hv => ?_, fun v st₁ hg hv => ?_, fun st₁ hg => ?_⟩
  · rcases hge : get st now (effectiveKey cacheKey url) with ⟨c, s⟩
    rcases c with _ | v
    · simp [fetchWithCache, hge]
    · by_cases hv : jsTruthy v <;> simp [fetchWithCache, hge, hv]
  · rcases hge : get st now (effectiveKey cacheKey url) with ⟨c, s⟩
    rcases c with _ | v
    · simp [fetchWithCache, hge]
    · by_cases hv : jsTruthy v <;> simp [fetchWithCache, hge, hv]
  · simp [fetchWithCache, hg, hv]
  · simp [fetchWithCache, hg, hv]
  · simp [fetchWithCache, hg]

/-- Store holding a present, unexpired cache entry whose value is the
falsy JSON value false. -/
def c5FalseStore : Store :=
  ⟨true, true, [("k", ⟨.bool false, 0, Option.none⟩)], [], [], 1⟩

/-- Store whose primary substrate is unavailable, holding a fallback
entry whose age at read time (5 s) exceeds its ttl (1 s). -/
def c5LsStore : Store :=
  ⟨false, true, [], [("k", ⟨.str "v", 0, some 1⟩)], [], 1⟩

/-- C5 counterexample: (i) offline with a present unexpired cached value
of false, the code fails with the no-offline-data condition instead of
returning the cached value, because `if (cached)` tests truthiness;
(ii) offline with the fallback substrate serving an entry whose age
exceeds its ttl, the code returns the expired value instead of failing. -/
theorem fetchWithCache_offline_counterexample :
    lookupKV c5FalseStore.idbCache "k" = some ⟨.bool false, 0, Option.none⟩ ∧
    (fetchWithCache c5FalseStore 0 false Option.none "k" Option.none).result =
      FetchResult.noOfflineData ∧
    (fetchWithCache c5LsStore 5000 false Option.none "k" Option.none).result =
      FetchResult.ok (JVal.str "v") :=
  ⟨rfl, rfl, rfl⟩

/-- Store holding a fresh, truthy cache entry for the C5 witness. -/
def c5Store : Store :=
  ⟨true, true, [("k", ⟨.str "v", 0, some 86400⟩)], [], [], 1⟩

/-- C5 amended-claim witness: the offline read of a fresh truthy entry
serves it from the cache with no network request. -/
theorem fetchWithCache_offline_witness :
    (fetchWithCache c5Store 1000 false Option.none "k" Option.none).networkCalled
      = false ∧
    (fetchWithCache c5Store 1000 false Option.none "k" Option.none).result =
      FetchResult.ok (JVal.str "v") :=
  ⟨(fetchWithCache_offline c5Store 1000 Option.none "k" Option.none).1,
   (fetchWithCache_offline c5Store 1000 Option.none "k" Option.none).2.2.1
     (JVal.str "v") c5Store rfl rfl⟩

/-- C9 (amended): while online, a successful remote call writes the
response through the store's save (ttl 86400 s, hitting whichever
substrate is available) and returns it — on the primary substrate the
written record is the response stamped now with ttl 86400; a failed
remote call returns the cached value when the store read yields a truthy
one, and otherwise propagates the network failure. -/
theorem fetchWithCache_online (st : Store) (now : Int) (url : String)
    (cacheKey : Option String) :
    (∀ d : JVal,
      fetchWithCache st now true (some d) url cacheKey =
        ⟨.ok d, true, (save st now (effectiveKey cacheKey url) d (some 86400)).2⟩ ∧
      (st.idbAvailable = true →
        lookupKV (fetchWithCache st now true (some d) url cacheKey).store.idbCache
          (effectiveKey cacheKey url) = some ⟨d, now, some 86400⟩)) ∧
    (∀ v st₁, get st now (effectiveKey cacheKey url) = (some v, st₁) →
      jsTruthy v = true →
      (fetchWithCache st now true Option.none url cacheKey).result = .ok v) ∧
    (∀ v st₁, get st now (effectiveKey cacheKey url) = (some v, st₁) →
      jsTruthy v = false →
      (fetchWithCache st now true Option.none url cacheKey).result =
        .networkError) ∧
    (∀ st₁, get st now (effectiveKey cacheKey url) = (Option.none, st₁) →
      (fetchWithCache st now true Option.none url cacheKey).result =
        .networkError) := by
  refine ⟨fun d => ⟨?_, fun hidb => ?_⟩, fun v st₁ hg hv => ?_,
    fun v st₁ hg hv => ?_, fun st₁ hg => ?_⟩
  · rcases hs : save st now (effectiveKey cacheKey url) d (some 86400) with ⟨b, st₁⟩
    simp [fetchWithCache, hs]
  · have hsave : save st now (effectiveKey cacheKey url) d (some 86400) =
        (true, { st with idbCache := putKV st.idbCache (effectiveKey cacheKey url) ⟨d, now, some 86400⟩ }) := by
      simp [save, hidb]
    simp [fetchWithCache, hsave, lookupKV_putKV]
  · simp [fetchWithCache, hg, hv]
  · simp [fetchWithCache, hg, hv]
  · simp [fetchWithCache, hg]

/-- Store holding a present cache entry whose value is the falsy JSON
value false, used against the online read path. -/
def c9Store : Store :=
  ⟨true, true, [("k", ⟨.bool false, 0, Option.none⟩)], [], [], 1⟩

/-- C9 counterexample: online with the remote call failing and a present
unexpired cached value of false, the code propagates the network failure
instead of returning the cached value, because `if (cached)` tests
truthiness. -/
theorem fetchWithCache_online_counterexample :
    lookupKV c9Store.idbCache "k" = some ⟨.bool false, 0, Option.none⟩ ∧
    (fetchWithCache c9Store 0 true Option.none "k" Option.none).result =
      FetchResult.networkError :=
  ⟨rfl, rfl⟩

/-- Store holding a fresh truthy cache entry for the C9 witness. -/
def c9CacheStore : Store :=
  ⟨true, true, [("k", ⟨.str "v", 0, some 86400⟩)], [], [], 1⟩

/-- C9 amended-claim witness: the successful online read persists and
returns the response; the failed online read serves the truthy cached
value. -/
theorem fetchWithCache_online_witness :
    fetchWithCache c9CacheStore 1000 true (some (JVal.str "fresh")) "k"
        Option.none =
      ⟨FetchResult.ok (JVal.str "fresh"), true,
       (save c9CacheStore 1000 "k" (JVal.str "fresh") (some 86400)).2⟩ ∧
    (fetchWithCache c9CacheStore 1000 true Option.none "k" Option.none).result =
      FetchResult.ok (JVal.str "v") :=
  ⟨((fetchWithCache_online c9CacheStore 1000 "k" Option.none).1
      (JVal.str "fresh")).1,
   (fetchWithCache_online c9CacheStore 1000 "k" Option.none).2.1
     (JVal.str "v") c9CacheStore rfl rfl⟩

/-! Claim C6: the cache-aside write path. -/

/-- Payload written by the C6 scenarios. -/
def c6Data : JVal := .obj [("name", .str "A")]

/-- Empty store with both substrates available. -/
def c6Store : Store := ⟨true, true, [], [], [], 1⟩

/-- C6 counterexample: while online with the remote call failing, the
write is enqueued and cached optimistically, but the reported success
flag is false (with queued = true), not the success-with-queued=true the
claim states. -/
theorem updateWithQueue_success_counterexample :
    (updateWithQueue c6Store 0 true Option.none "/u" c6Data "PUT"
      Option.none).success = false ∧
    (updateWithQueue c6Store 0 true Option.none "/u" c6Data "PUT"
      Option.none).queued = some true :=
  ⟨rfl, rfl⟩

/-- C6 (amended): while online a successful remote call overwrites the
cache with the server response (ttl 86400 s) and reports success = true
with no queued flag; a failed remote call enqueues the mutation (when the
primary substrate is available), writes the optimistic envelope to the
cache, and reports success = false with queued = true — the call itself
never throws, since serialization of the inductive payload type always
succeeds. -/
theorem updateWithQueue_online (st : Store) (now : Int) (url method : String)
    (data : JVal) (cacheKey : Option String) :
    (∀ r : JVal,
      updateWithQueue st now true (some r) url data method cacheKey =
        ⟨true, Option.none,
         (save st now (effectiveKey cacheKey url) r (some 86400)).2⟩) ∧
    (updateWithQueue st now true Option.none url data method cacheKey =
      ⟨false, some true,
        (save (queueAction st now url data method (effectiveKey cacheKey url)).2
          now (effectiveKey cacheKey url)
          (optimisticEnvelope data "Changes saved locally (will retry)")
          (some 86400)).2⟩) ∧
    (st.idbAvailable = true →
      (updateWithQueue st now true Option.none url data method
        cacheKey).store.queue =
        st.queue ++ [⟨st.nextId, url, data, method,
          effectiveKey cacheKey url, now⟩]) := by
  have h2 : updateWithQueue st now true Option.none url data method cacheKey =
      ⟨false, some true,
        (save (queueAction st now url data method (effectiveKey cacheKey url)).2
          now (effectiveKey cacheKey url)
          (optimisticEnvelope data "Changes saved locally (will retry)")
          (some 86400)).2⟩ := by
    rcases hq : queueAction st now url data method (effectiveKey cacheKey url)
      with ⟨b₁, st₁⟩
    rcases hs : save st₁ now (effectiveKey cacheKey url)
      (optimisticEnvelope data "Changes saved locally (will retry)")
      (some 86400) with ⟨b₂, st₂⟩
    simp [updateWithQueue, hq, hs]
  refine ⟨fun r => ?_, h2, fun hidb => ?_⟩
  · rcases hs : save st now (effectiveKey cacheKey url) r (some 86400)
      with ⟨b, st₁⟩
    simp [updateWithQueue, hs]
  · rw [h2]
    show (save _ _ _ _ _).2.queue = _
    rw [save_queue]
    simp [queueAction, hidb]

/-- C6 amended-claim witness: at the empty store, the successful online
write stores the response; the failed online write leaves exactly the new
mutation in the queue. -/
theorem updateWithQueue_online_witness :
    updateWithQueue c6Store 5 true (some (JVal.str "resp")) "/u" c6Data "PUT"
        Option.none =
      ⟨true, Option.none, (save c6Store 5 "/u" (JVal.str "resp") (some 86400)).2⟩ ∧
    (updateWithQueue c6Store 5 true Option.none "/u" c6Data "PUT"
      Option.none).store.queue = [⟨1, "/u", c6Data, "PUT", "/u", 5⟩] :=
  ⟨(updateWithQueue_online c6Store 5 "/u" "PUT" c6Data Option.none).1
      (JVal.str "resp"),
   by
     have h := (updateWithQueue_online c6Store 5 "/u" "PUT" c6Data
       Option.none).2.2 rfl
     simpa using h⟩

/-! Claim C4: the offline credential validator. -/

theorem get_none_stable (st st₁ : Store) (now : Int) (key : String)
    (h : get st now key = (Option.none, st₁)) :
    get st₁ now key = (Option.none, st₁) := by
  by_cases h1 : st.idbAvailable = true
  · rcases hl : lookupKV st.idbCache key with _ | r
    · have h' : st = st₁ := by simpa [get, h1, hl] using h
      subst h'
      simp [get, h1, hl]
    · by_cases he : ttlExpired now r = true
      · have h' : { st with idbCache := delKV st.idbCache key } = st₁ := by
          simpa [get, h1, hl, he] using h
        subst h'
        simp [get, h1, lookupKV_delKV]
      · simp [get, h1, hl, he] at h
  · by_cases h2 : st.lsAvailable = true
    · rcases hl : lookupKV st.lsCache key with _ | r
      · have h' : st = st₁ := by simpa [get, h1, h2, hl] using h
        subst h'
        simp [get, h1, h2, hl]
      · simp [get, h1, h2, hl] at h
    · have h' : st = st₁ := by simpa [get, h1, h2] using h
      subst h'
      simp [get, h1, h2]

theorem get_some_eq (st st₁ : Store) (now : Int) (key : String) (v : JVal)
    (h : get st now key = (some v, st₁)) : st₁ = st := by
  by_cases h1 : st.idbAvailable = true
  · rcases hl : lookupKV st.idbCache key with _ | r
    · simp [get, h1, hl] at h
    · by_cases he : ttlExpired now r = true
      · simp [get, h1, hl, he] at h
      · have := (by simpa [get, h1, hl, he] using h : r.value = v ∧ st = st₁)
        exact this.2.symm
  · by_cases h2 : st.lsAvailable = true
    · rcases hl : lookupKV st.lsCache key with _ | r
      · simp [get, h1, h2, hl] at h
      · have := (by simpa [get, h1, h2, hl] using h : r.value = v ∧ st = st₁)
        exact this.2.symm
    · simp [get, h1, h2] at h

theorem getCachedUserData_stable (st st₁ : Store) (now : Int)
    (h : getCachedUserData st now = (Option.none, st₁)) :
    getCachedUserData st₁ now = (Option.none, st₁) := by
  rcases hg : get st now "auth_user_data" with ⟨c, s⟩
  rcases c with _ | v
  · have h' : s = st₁ := by simpa [getCachedUserData, hg] using h
    subst h'
    simp [getCachedUserData, get_none_stable st s now _ hg]
  · have hst : s = st := get_some_eq st s now _ v hg
    by_cases hv : jsTruthy v = true
    · simp [getCachedUserData, hg, hv] at h
    · have h' : s = st₁ := by simpa [getCachedUserData, hg, hv] using h
      subst hst
      subst h'
      simp [getCachedUserData, hg, hv]

/-- The invalidity condition exactly as claim C4 words it: the token is
invalid when it is not three dot-separated segments, its claims fail to
decode, or its exp claim is at or before the current time (exp in
seconds, the current time in milliseconds). Stated from the claim, for
comparison with verifyTokenOffline. -/
def specTokenInvalid (decode : String → Option JwtPayload) (now : Int)
    (token : String) : Bool :=
  match splitOnDot token with
  | [_, p, _] =>
    match decode p with
    | none => true
    | some payload =>
      match payload.exp with
      | some e => if e * 1000 ≤ now then true else false
      | none => false
  | _ => true

/-- Decode oracle under which the middle segment p carries exp = 0. -/
def c4Decode : String → Option JwtPayload :=
  fun seg => if seg == "p" then some ⟨some 0⟩ else Option.none

/-- A cached identity payload. -/
def c4User : JVal := .obj [("email", .str "user@example.com")]

/-- Store holding the cached identity under auth_user_data. -/
def c4Store : Store :=
  ⟨true, true, [("auth_user_data", ⟨c4User, 0, Option.none⟩)], [], [], 1⟩

/-- C4 counterexample: the token h.p.s decodes to claims with exp = 0, an
expiry at or before the current time (1000 ms), so the claim deems the
credential invalid and — with a cached identity present — requires
method = cache; the code accepts the credential (the truthiness test
`if (payload.exp)` is falsy at 0 and skips the expiry comparison) and
reports method = token. -/
theorem isAuthenticatedOffline_counterexample :
    specTokenInvalid c4Decode 1000 "h.p.s" = true ∧
    (getCachedUserData c4Store 1000).1 = some c4User ∧
    verifyTokenOffline c4Decode 1000 "h.p.s" = true ∧
    (isAuthenticatedOffline c4Decode 1000 (some "h.p.s") c4Store).1.method =
      AuthMethod.token :=
  ⟨rfl, rfl, rfl, rfl⟩

/-- C4 (amended): the credential is rejected exactly when it is not three
dot-separated segments, its claims fail to decode, or its exp claim is
present, nonzero, and at or before the current time; given an accepted
nonempty credential and a truthy cached identity the method is token;
given a rejected, empty or absent credential and a truthy cached identity
the method is cache; with no truthy cached identity the result is
unauthenticated with method none. -/
theorem isAuthenticatedOffline_precedence (decode : String → Option JwtPayload)
    (now : Int) :
    (∀ tok : String, (splitOnDot tok).length ≠ 3 →
      verifyTokenOffline decode now tok = false) ∧
    (∀ tok h p s : String, splitOnDot tok = [h, p, s] →
      decode p = Option.none → verifyTokenOffline decode now tok = false) ∧
    (∀ (tok h p s : String) (payload : JwtPayload), splitOnDot tok = [h, p, s] →
      decode p = some payload →
      (verifyTokenOffline decode now tok = false ↔
        ∃ e, payload.exp = some e ∧ e ≠ 0 ∧ e * 1000 ≤ now)) ∧
    (∀ (t : String) (st st₁ : Store) (u : JVal), t ≠ "" →
      verifyTokenOffline decode now t = true →
      getCachedUserData st now = (some u, st₁) →
      (isAuthenticatedOffline decode now (some t) st).1 =
        ⟨true, some u, AuthMethod.token⟩) ∧
    (∀ (cookieToken : Option String) (st st₁ : Store) (u : JVal),
      (cookieToken = Option.none ∨
        ∃ t, cookieToken = some t ∧
          (t = "" ∨ verifyTokenOffline decode now t = false)) →
      getCachedUserData st now = (some u, st₁) →
      (isAuthenticatedOffline decode now cookieToken st).1 =
        ⟨true, some u, AuthMethod.cache⟩) ∧
    (∀ (cookieToken : Option String) (st st₁ : Store),
      getCachedUserData st now = (Option.none, st₁) →
      (isAuthenticatedOffline decode now cookieToken st).1 =
        ⟨false, Option.none, AuthMethod.none⟩) := by
  refine ⟨?_, ?_, ?_, ?_, ?_, ?_⟩
  · intro tok hlen
    rcases hs : splitOnDot tok with _ | ⟨a, _ | ⟨b, _ | ⟨c, _ | ⟨d, rest⟩⟩⟩⟩
    · simp [verifyTokenOffline, hs]
    · simp [verifyTokenOffline, hs]
    · simp [verifyTokenOffline, hs]
    · exact absurd (by simp [hs]) hlen
    · simp [verifyTokenOffline, hs]
  · intro tok h p s hsplit hdec
    unfold verifyTokenOffline
    rw [hsplit]
    simp [hdec]
  · intro tok h p s payload hsplit hdec
    unfold verifyTokenOffline
    rw [hsplit]
    simp only [hdec]
    rcases hexp : payload.exp with _ | e
    · simp [hexp]
    · simp only [hexp]
      by_cases he : e = 0
      · simp [he]
      · by_cases hle : e * 1000 ≤ now
        · simp [he, hle, ge_iff_le]
        · simp [he, hle, ge_iff_le]
  · intro t st st₁ u ht hv hget
    have hb : (t != "") = true := bne_iff_ne.mpr ht
    simp [isAuthenticatedOffline, hb, hv, hget]
  · intro cookieToken st st₁ u hrej hget
    rcases hrej with hnone | ⟨t, hsome, hrej⟩
    · subst hnone
      simp [isAuthenticatedOffline, hget]
    · subst hsome
      rcases hrej with hempty | hfail
      · subst hempty
        simp [isAuthenticatedOffline, hget]
      · simp [isAuthenticatedOffline, hfail, hget]
  · intro cookieToken st st₁ hget
    have hstable := getCachedUserData_stable st st₁ now hget
    rcases cookieToken with _ | t
    · simp [isAuthenticatedOffline, hget]
    · by_cases hb : (t != "" && verifyTokenOffline decode now t) = true
      · simp [isAuthenticatedOffline, hb, hget, hstable]
      · simp only [Bool.not_eq_true] at hb
        simp [isAuthenticatedOffline, hb, hget]

/-- Decode oracle for the C4 witness: the middle segment q carries a far
future expiry. -/
def c4ValidDecode : String → Option JwtPayload :=
  fun seg => if seg == "q" then some ⟨some 2000000000⟩ else Option.none

/-- Empty store with no cached identity. -/
def c4Empty : Store := ⟨true, true, [], [], [], 1⟩

/-- C4 amended-claim witness: a valid unexpired credential with a cached
identity gives method token; no credential with a cached identity gives
method cache; no cached identity gives unauthenticated. -/
theorem isAuthenticatedOffline_precedence_witness :
    (isAuthenticatedOffline c4ValidDecode 1000 (some "x.q.y") c4Store).1 =
      ⟨true, some c4User, AuthMethod.token⟩ ∧
    (isAuthenticatedOffline c4ValidDecode 1000 Option.none c4Store).1 =
      ⟨true, some c4User, AuthMethod.cache⟩ ∧
    (isAuthenticatedOffline c4ValidDecode 1000 (some "x.q.y") c4Empty).1 =
      ⟨false, Option.none, AuthMethod.none⟩ :=
  ⟨(isAuthenticatedOffline_precedence c4ValidDecode 1000).2.2.2.1 "x.q.y"
      c4Store c4Store c4User (by decide) rfl rfl,
   (isAuthenticatedOffline_precedence c4ValidDecode 1000).2.2.2.2.1
      Option.none c4Store c4Store c4User (Or.inl rfl) rfl,
   (isAuthenticatedOffline_precedence c4ValidDecode 1000).2.2.2.2.2
      (some "x.q.y") c4Empty c4Empty rfl⟩

end NuxtAuth
